import Mathlib

/-!
Shallow embedding of the pymyo Myo client (src/pymyo/myo.py and
src/pymyo/types.py): the command encoders, the notification decoders,
the cached mode state and the event fan-out loop, together with theorems
settling the specification claims about them.

Conventions of the embedding:
* Python byte strings are `List Nat` with every element below 256.
* A command method is a function returning the frames it passed to
  `write_gatt_char` (field `written`), the exception that escaped to the
  caller if any (field `raised`), and the cached mode state after the
  call.  A `writeOk` flag models whether the underlying link write
  succeeded or raised.
* A notification callback is a function from the raw bytes to
  `Except PyErr …`; an `Except.error` result is an exception escaping
  the callback into the link's delivery path.
* Python floats produced by the IMU scaling are exact dyadic rationals
  (an int16 divided by a power of two is exactly representable in
  binary64), so they are modelled by `ℚ` without loss.
-/

/-- `EmgMode` enum from types.py. -/
inductive EmgMode
  | NONE
  | PROCESSED
  | EMG
  | EMG_RAW
deriving DecidableEq

def EmgMode.toNat : EmgMode → Nat
  | .NONE => 0x00
  | .PROCESSED => 0x01
  | .EMG => 0x02
  | .EMG_RAW => 0x03

/-- `ImuMode` enum from types.py. -/
inductive ImuMode
  | NONE
  | DATA
  | EVENTS
  | ALL
  | RAW
deriving DecidableEq

def ImuMode.toNat : ImuMode → Nat
  | .NONE => 0x00
  | .DATA => 0x01
  | .EVENTS => 0x02
  | .ALL => 0x03
  | .RAW => 0x04

/-- `ClassifierMode` enum from types.py. -/
inductive ClassifierMode
  | DISABLED
  | ENABLED
deriving DecidableEq

def ClassifierMode.toNat : ClassifierMode → Nat
  | .DISABLED => 0x00
  | .ENABLED => 0x01

/-- `SleepMode` enum from types.py. -/
inductive SleepMode
  | NORMAL
  | NEVER_SLEEP
deriving DecidableEq

def SleepMode.toNat : SleepMode → Nat
  | .NORMAL => 0
  | .NEVER_SLEEP => 1

/-- `Pose` enum from types.py. -/
inductive Pose
  | REST
  | FIST
  | WAVE_IN
  | WAVE_OUT
  | FINGERS_SPREAD
  | DOUBLE_TAP
  | UNKNOWN
deriving DecidableEq

/-- `Pose(value)`: Python enum construction, `none` models the
`ValueError` raised on a value outside the enum. -/
def Pose.fromNat? : Nat → Option Pose
  | 0x00 => some .REST
  | 0x01 => some .FIST
  | 0x02 => some .WAVE_IN
  | 0x03 => some .WAVE_OUT
  | 0x04 => some .FINGERS_SPREAD
  | 0x05 => some .DOUBLE_TAP
  | 0xFF => some .UNKNOWN
  | _ => none

/-- `Arm` enum from types.py. -/
inductive Arm
  | RIGHT
  | LEFT
  | UNKNOWN
deriving DecidableEq

/-- `Arm(value)`: Python enum construction. -/
def Arm.fromNat? : Nat → Option Arm
  | 0x01 => some .RIGHT
  | 0x02 => some .LEFT
  | 0xFF => some .UNKNOWN
  | _ => none

/-- `XDirection` enum from types.py. -/
inductive XDirection
  | WRIST
  | ELBOW
  | UNKNOWN
deriving DecidableEq

/-- `XDirection(value)`: Python enum construction. -/
def XDirection.fromNat? : Nat → Option XDirection
  | 0x01 => some .WRIST
  | 0x02 => some .ELBOW
  | 0xFF => some .UNKNOWN
  | _ => none

/-- `SyncResult` enum from types.py. -/
inductive SyncResult
  | FAILED_TOO_HARD
deriving DecidableEq

/-- `ClassifierEventType` enum from types.py. -/
inductive ClassifierEventType
  | ARM_SYNCED
  | ARM_UNSYNCED
  | POSE
  | UNLOCKED
  | LOCKED
  | SYNC_FAILED
deriving DecidableEq

def ClassifierEventType.toNat : ClassifierEventType → Nat
  | .ARM_SYNCED => 0x01
  | .ARM_UNSYNCED => 0x02
  | .POSE => 0x03
  | .UNLOCKED => 0x04
  | .LOCKED => 0x05
  | .SYNC_FAILED => 0x06

/-- The Python exceptions that the embedded operations can raise. -/
inductive PyErr
  /-- `ValueError`, e.g. from an enum constructor or vibrate2's step check. -/
  | valueError
  /-- The `RuntimeError` raised by `_on_classifier` for an unknown
  event-type byte (carried along). -/
  | runtimeError (eventType : Nat)
  /-- `struct.error` from `struct.pack`/`struct.unpack`. -/
  | structError
  /-- An exception raised by the link's `write_gatt_char`. -/
  | linkFailure
deriving DecidableEq

/-- The cached mode fields of a `Myo` session (`_emg_mode`, `_imu_mode`,
`_classifier_mode`, `_sleep_mode`). -/
structure ModeState where
  emg_mode : EmgMode
  imu_mode : ImuMode
  classifier_mode : ClassifierMode
  sleep_mode : SleepMode
deriving DecidableEq

/-- The cache as initialised by `Myo.__init__`. -/
def initialModeState : ModeState :=
  { emg_mode := .NONE
    imu_mode := .NONE
    classifier_mode := .DISABLED
    sleep_mode := .NORMAL }

/-- Observable outcome of one command method on the session: the frames
passed to `write_gatt_char` on the command characteristic (in order),
the exception escaping to the caller if any, and the cached mode state
after the call. -/
structure OpResult where
  written : List (List Nat)
  raised : Option PyErr
  state : ModeState
deriving DecidableEq

/-- Outcome of a command method that does not touch the cached state. -/
structure WriteResult where
  written : List (List Nat)
  raised : Option PyErr
deriving DecidableEq

/-- `Myo.set_mode`: each `none` argument is replaced by the cached
value, the frame `struct.pack("<5B", 1, 3, emg, imu, classifier)` is
written, and only after a successful write the three cached fields are
assigned.  `writeOk` tells whether `write_gatt_char` succeeded. -/
def set_mode (st : ModeState) (emg? : Option EmgMode) (imu? : Option ImuMode)
    (cls? : Option ClassifierMode) (writeOk : Bool) : OpResult :=
  let emg := emg?.getD st.emg_mode
  let imu := imu?.getD st.imu_mode
  let cls := cls?.getD st.classifier_mode
  let frame := [1, 3, emg.toNat, imu.toNat, cls.toNat]
  if writeOk then
    { written := [frame]
      raised := none
      state := { st with emg_mode := emg, imu_mode := imu, classifier_mode := cls } }
  else
    { written := [frame]
      raised := some .linkFailure
      state := st }

/-- `Myo.set_sleep_mode`: unconditionally writes
`struct.pack("<3B", 9, 1, sleep_mode)`, then caches the new value. -/
def set_sleep_mode (st : ModeState) (m : SleepMode) (writeOk : Bool) : OpResult :=
  let frame := [9, 1, m.toNat]
  if writeOk then
    { written := [frame], raised := none, state := { st with sleep_mode := m } }
  else
    { written := [frame], raised := some .linkFailure, state := st }

/-- `Myo.vibrate` called with a raw integer argument, as Python permits
(type annotations are not enforced at runtime): `struct.pack("<3B", 3,
1, v)` raises `struct.error` only when `v` does not fit in a byte;
otherwise the frame is written with no validation of the enum range. -/
def vibrate (v : Nat) : WriteResult :=
  if v < 256 then
    { written := [[3, 1, v]], raised := none }
  else
    { written := [], raised := some .structError }

/-- `Myo.unlock` called with a raw integer argument (annotations are
unenforced): `struct.pack("<3B", 10, 1, v)` then the write — no enum
validation. -/
def unlock (v : Nat) : WriteResult :=
  if v < 256 then
    { written := [[10, 1, v]], raised := none }
  else
    { written := [], raised := some .structError }

/-- `Myo.user_action` called with a raw integer argument:
`struct.pack("<3B", 11, 1, v)` then the write — no enum validation. -/
def user_action (v : Nat) : WriteResult :=
  if v < 256 then
    { written := [[11, 1, v]], raised := none }
  else
    { written := [], raised := some .structError }

/-- The encode-and-write path of `Myo.set_sleep_mode` called with a
raw integer argument: `struct.pack("<3B", 9, 1, v)` then the write —
no enum validation.  (The cache update on the typed path is modelled
by `set_sleep_mode`.) -/
def set_sleep_mode_rawArg (v : Nat) : WriteResult :=
  if v < 256 then
    { written := [[9, 1, v]], raised := none }
  else
    { written := [], raised := some .structError }

/-- The encode-and-write path of `Myo.set_mode` called with all three
modes given as raw integers: `struct.pack("<5B", 1, 3, e, i, c)` then
the write — no enum validation.  (The merge with the cache and the
cache update are modelled by `set_mode`.) -/
def set_mode_rawArgs (e i c : Nat) : WriteResult :=
  if e < 256 ∧ i < 256 ∧ c < 256 then
    { written := [[1, 3, e, i, c]], raised := none }
  else
    { written := [], raised := some .structError }

/-- Maximum number of vibrate2 steps (`VIBRATE2_STEPS` in types.py). -/
def VIBRATE2_STEPS : Nat := 6

/-- The flattening of vibration steps into `struct.pack("<…HB…")`
payload bytes: each step contributes its duration as a little-endian
u16 followed by its strength byte. -/
def flatSteps : List (Nat × Nat) → List Nat
  | [] => []
  | (d, s) :: rest => d % 256 :: d / 256 :: s :: flatSteps rest

/-- Whether every step fits the `<HB` pack formats (duration a u16,
strength a u8); `struct.pack` raises `struct.error` otherwise. -/
def stepsFit (steps : List (Nat × Nat)) : Bool :=
  steps.all fun p => decide (p.1 < 65536) && decide (p.2 < 256)

/-- `Myo.vibrate2`: raises `ValueError` when more than 6 steps are
given (before any packing); otherwise pads the steps with `(0, 0)` up
to 6 and writes `struct.pack("<2B" + 6 * "HB", 7, 20, *flat_steps)`. -/
def vibrate2 (steps : List (Nat × Nat)) : WriteResult :=
  if VIBRATE2_STEPS < steps.length then
    { written := [], raised := some .valueError }
  else if stepsFit steps then
    let padded := steps ++ List.replicate (VIBRATE2_STEPS - steps.length) (0, 0)
    { written := [7 :: 20 :: flatSteps padded], raised := none }
  else
    { written := [], raised := some .structError }

/-- A registered listener for the fault model of `Event.notify`: an
identifier plus whether invoking it raises. -/
structure Listener where
  id : Nat
  faults : Bool
deriving DecidableEq

/-- `Event.notify`: the bare `for observer in self._observers:
observer(...)` loop.  Returns the identifiers of the listeners that got
invoked (in order) and, when one of them raised, the identifier of the
raiser — whose exception escapes the loop and propagates to the caller
of notify, skipping the remaining listeners. -/
def notifyRun : List Listener → List Nat × Option Nat
  | [] => ([], none)
  | l :: ls =>
    if l.faults then
      ([l.id], some l.id)
    else
      let r := notifyRun ls
      (l.id :: r.1, r.2)

/-- An event handed to one of the session's `Event` buses by a
notification callback. -/
inductive DispatchedEvent
  | sync (arm : Arm) (x_direction : XDirection) (failed : Option SyncResult)
  | pose (p : Pose)
  | lock (locked : Bool)
  | tap (direction count : Nat)
deriving DecidableEq

/-- `Myo._on_classifier` on a 3-byte value `[e, d1, d2]`
(`struct.unpack("<B2s", value)` gives event type `e` and 2 payload
bytes).  An `Except.error` is an exception escaping the callback:
`ValueError` from an enum constructor, or the `RuntimeError` raised for
an event-type byte outside the six defined values.  The `ok` list holds
the events dispatched for the frame. -/
def onClassifier (e d1 d2 : Nat) : Except PyErr (List DispatchedEvent) :=
  if e = ClassifierEventType.ARM_SYNCED.toNat then
    match Arm.fromNat? d1, XDirection.fromNat? d2 with
    | some a, some x => .ok [.sync a x none]
    | _, _ => .error .valueError
  else if e = ClassifierEventType.ARM_UNSYNCED.toNat then
    .ok [.sync .UNKNOWN .UNKNOWN none]
  else if e = ClassifierEventType.POSE.toNat then
    match Pose.fromNat? (d1 + 256 * d2) with
    | some p => .ok [.pose p]
    | none => .error .valueError
  else if e = ClassifierEventType.UNLOCKED.toNat then
    .ok [.lock false]
  else if e = ClassifierEventType.LOCKED.toNat then
    .ok [.lock true]
  else if e = ClassifierEventType.SYNC_FAILED.toNat then
    .ok [.sync .UNKNOWN .UNKNOWN (some .FAILED_TOO_HARD)]
  else
    .error (.runtimeError e)

/-- `Myo._on_motion`: `struct.unpack("<3B", value)`(raising
`struct.error` unless the value is exactly 3 bytes), then
`on_tap.notify(*tap_data)` with the last two bytes — the event-type
byte is never examined. -/
def onMotion (bs : List Nat) : Except PyErr (List DispatchedEvent) :=
  match bs with
  | [_, d, c] => .ok [.tap d c]
  | _ => .error .structError

/-- Decode one `<h` value (signed 16-bit little-endian) from two
bytes. -/
def int16le (lo hi : Nat) : Int :=
  let u := lo % 256 + 256 * (hi % 256)
  if u < 32768 then (u : Int) else (u : Int) - 65536

/-- Encode an `Int` in int16 range as its two little-endian bytes. -/
def encInt16le (x : Int) : Nat × Nat :=
  let u := (x % 65536).toNat
  (u % 256, u / 256)

/-- The payload handed to `on_imu.notify` by `Myo._on_imu`. -/
structure ImuEvent where
  orientation : ℚ × ℚ × ℚ × ℚ
  accelerometer : ℚ × ℚ × ℚ
  gyroscope : ℚ × ℚ × ℚ
deriving DecidableEq

/-- `Myo._on_imu`: `struct.unpack("<10h", value)` (raising
`struct.error` unless the value is exactly 20 bytes) into ten signed
shorts, then the first 4 divided by 16384 form the orientation
quaternion, the next 3 divided by 2048 the accelerometer and the final
3 divided by 16 the gyroscope. -/
def onImu (bs : List Nat) : Except PyErr ImuEvent :=
  match bs with
  | [a0, b0, a1, b1, a2, b2, a3, b3, a4, b4, a5, b5, a6, b6, a7, b7, a8, b8, a9, b9] =>
    let s0 := int16le a0 b0
    let s1 := int16le a1 b1
    let s2 := int16le a2 b2
    let s3 := int16le a3 b3
    let s4 := int16le a4 b4
    let s5 := int16le a5 b5
    let s6 := int16le a6 b6
    let s7 := int16le a7 b7
    let s8 := int16le a8 b8
    let s9 := int16le a9 b9
    .ok
      { orientation := ((s0 : ℚ) / 16384, (s1 : ℚ) / 16384, (s2 : ℚ) / 16384, (s3 : ℚ) / 16384)
        accelerometer := ((s4 : ℚ) / 2048, (s5 : ℚ) / 2048, (s6 : ℚ) / 2048)
        gyroscope := ((s7 : ℚ) / 16, (s8 : ℚ) / 16, (s9 : ℚ) / 16) }
  | _ => .error .structError

/-- C1: every call to set_mode replaces each omitted mode argument by
the session's cached value and writes exactly the 5-byte frame
`[1, 3, emg, imu, classifier]`; in particular, with only `emg_mode`
given and cached state `(imu = DATA, classifier = ENABLED)` the frame
is `[1, 3, emg, DATA, ENABLED]`. -/
theorem set_mode_frame (st : ModeState) (emg? : Option EmgMode) (imu? : Option ImuMode)
    (cls? : Option ClassifierMode) (w : Bool) :
    (set_mode st emg? imu? cls? w).written =
      [[1, 3, (emg?.getD st.emg_mode).toNat, (imu?.getD st.imu_mode).toNat,
        (cls?.getD st.classifier_mode).toNat]] ∧
    (∀ e : EmgMode, st.imu_mode = ImuMode.DATA → st.classifier_mode = ClassifierMode.ENABLED →
      (set_mode st (some e) none none w).written =
        [[1, 3, e.toNat, ImuMode.DATA.toNat, ClassifierMode.ENABLED.toNat]]) := by
  constructor
  · cases w <;> rfl
  · intro e h1 h2
    cases w <;> simp [set_mode, h1, h2]

/-- Witness for `set_mode_frame`: with EMG requested and (DATA,
ENABLED) cached, the written frame is `[1, 3, 2, 1, 1]`. -/
theorem set_mode_frame_witness :
    (set_mode ⟨.NONE, .DATA, .ENABLED, .NORMAL⟩ (some .EMG) none none true).written =
      [[1, 3, 2, 1, 1]] := by
  have h := (set_mode_frame ⟨.NONE, .DATA, .ENABLED, .NORMAL⟩
      (some .EMG) none none true).2 .EMG rfl rfl
  simpa [EmgMode.toNat, ImuMode.toNat, ClassifierMode.toNat] using h

/-- C5: when the command-characteristic write in set_mode fails, the
exception propagates to the caller and the cached mode triple is left
unchanged; the cache is updated to the merged triple exactly when the
write succeeded. -/
theorem set_mode_failure_atomic (st : ModeState) (emg? : Option EmgMode)
    (imu? : Option ImuMode) (cls? : Option ClassifierMode) :
    ((set_mode st emg? imu? cls? false).raised = some PyErr.linkFailure ∧
     (set_mode st emg? imu? cls? false).state = st) ∧
    ((set_mode st emg? imu? cls? true).raised = none ∧
     (set_mode st emg? imu? cls? true).state =
       { emg_mode := emg?.getD st.emg_mode
         imu_mode := imu?.getD st.imu_mode
         classifier_mode := cls?.getD st.classifier_mode
         sleep_mode := st.sleep_mode }) :=
  ⟨⟨rfl, rfl⟩, ⟨rfl, rfl⟩⟩

/-- C9 counterexample: with the cached sleep mode already NORMAL,
calling set_sleep_mode with NORMAL is not a no-op — a frame is still
written. -/
theorem set_sleep_mode_redundant_write :
    initialModeState.sleep_mode = SleepMode.NORMAL ∧
    (set_sleep_mode initialModeState SleepMode.NORMAL true).written ≠ [] := by
  decide

/-- C9 amended: set_sleep_mode always encodes and writes the frame
`[9, 1, sleep_mode]`, whatever the cached value; the redundant-value
elision described by the spec is absent from this version of the
code. -/
theorem set_sleep_mode_always_writes (st : ModeState) (m : SleepMode) (w : Bool) :
    (set_sleep_mode st m w).written = [[9, 1, m.toNat]] := by
  cases w <;> rfl

/-- C8 counterexample: vibrate called with the out-of-enum integer 7
raises nothing and performs the write (frame `[3, 1, 7]`) — no
InvalidArgument-style validation happens. -/
theorem vibrate_out_of_range_written :
    (vibrate 7).raised = none ∧ (vibrate 7).written = [[3, 1, 7]] := by
  decide

/-- C8 amended: none of the five enum-taking command operations —
vibrate, set_sleep_mode, unlock, user_action, set_mode — validates its
argument against the enum's legal value set; any integer that fits in
a byte, including values outside the enum such as 7 for
vibration_type, is encoded and written unchanged with no error, and
only a value that does not fit the pack format fails (with
`struct.error`, before any write). -/
theorem enum_args_not_validated (v e i c : Nat) :
    (v < 256 → vibrate v = { written := [[3, 1, v]], raised := none }) ∧
    (v < 256 → set_sleep_mode_rawArg v = { written := [[9, 1, v]], raised := none }) ∧
    (v < 256 → unlock v = { written := [[10, 1, v]], raised := none }) ∧
    (v < 256 → user_action v = { written := [[11, 1, v]], raised := none }) ∧
    (e < 256 → i < 256 → c < 256 →
      set_mode_rawArgs e i c = { written := [[1, 3, e, i, c]], raised := none }) ∧
    (256 ≤ v → vibrate v = { written := [], raised := some PyErr.structError }) := by
  refine ⟨fun h => ?_, fun h => ?_, fun h => ?_, fun h => ?_, fun h1 h2 h3 => ?_, fun h => ?_⟩
  · unfold vibrate
    rw [if_pos h]
  · unfold set_sleep_mode_rawArg
    rw [if_pos h]
  · unfold unlock
    rw [if_pos h]
  · unfold user_action
    rw [if_pos h]
  · unfold set_mode_rawArgs
    rw [if_pos ⟨h1, h2, h3⟩]
  · unfold vibrate
    rw [if_neg (by omega)]

/-- Witness for `enum_args_not_validated`: the out-of-enum byte 7 (and
9 for the mode triple) goes through every operation unvalidated, and
the non-byte 300 fails the pack. -/
theorem enum_args_not_validated_witness :
    vibrate 7 = { written := [[3, 1, 7]], raised := none } ∧
    set_sleep_mode_rawArg 7 = { written := [[9, 1, 7]], raised := none } ∧
    unlock 7 = { written := [[10, 1, 7]], raised := none } ∧
    user_action 7 = { written := [[11, 1, 7]], raised := none } ∧
    set_mode_rawArgs 9 9 9 = { written := [[1, 3, 9, 9, 9]], raised := none } ∧
    vibrate 300 = { written := [], raised := some PyErr.structError } :=
  ⟨(enum_args_not_validated 7 9 9 9).1 (by decide),
   (enum_args_not_validated 7 9 9 9).2.1 (by decide),
   (enum_args_not_validated 7 9 9 9).2.2.1 (by decide),
   (enum_args_not_validated 7 9 9 9).2.2.2.1 (by decide),
   (enum_args_not_validated 7 9 9 9).2.2.2.2.1 (by decide) (by decide) (by decide),
   (enum_args_not_validated 300 9 9 9).2.2.2.2.2 (by decide)⟩

/-- C10: a 3-byte motion notification is dispatched as a tap event
carrying its last two bytes, with the event-type byte never examined —
frames whose event-type byte is not TAP are dispatched all the same. -/
theorem onMotion_ignores_event_type (e d c : Nat) :
    onMotion [e, d, c] = Except.ok [DispatchedEvent.tap d c] := rfl

/-- C2 counterexample: with a first listener that raises and a second
that does not, it is false that every listener is invoked and that no
fault reaches the caller of notify — the loop stops at the raiser and
its exception propagates. -/
theorem notify_fault_not_isolated :
    ¬ ((notifyRun [⟨0, true⟩, ⟨1, false⟩]).1 = [0, 1] ∧
       (notifyRun [⟨0, true⟩, ⟨1, false⟩]).2 = none) := by
  decide

/-- C2 amended: notify invokes listeners synchronously in registration
order; when none raises, every listener is invoked exactly once and
nothing propagates, but when a listener raises, the listeners after it
in the same notify call are not invoked and the exception propagates to
the caller of notify. -/
theorem notify_order_and_fault (ls : List Listener) :
    ((∀ l ∈ ls, l.faults = false) → notifyRun ls = (ls.map Listener.id, none)) ∧
    (∀ pre f post, ls = pre ++ f :: post → (∀ l ∈ pre, l.faults = false) →
      f.faults = true →
      notifyRun ls = (pre.map Listener.id ++ [f.id], some f.id)) := by
  induction ls with
  | nil =>
    refine ⟨fun _ => rfl, ?_⟩
    intro pre f post hdec _ _
    exact absurd hdec (by simp)
  | cons a as ih =>
    constructor
    · intro hall
      have ha : a.faults = false := hall a (List.mem_cons_self a as)
      have htail := ih.1 fun l hl => hall l (List.mem_cons_of_mem a hl)
      simp [notifyRun, ha, htail]
    · intro pre f post hdec hpre hf
      cases pre with
      | nil =>
        simp only [List.nil_append] at hdec
        injection hdec with h1 h2
        subst h1
        subst h2
        simp [notifyRun, hf]
      | cons b pre2 =>
        simp only [List.cons_append] at hdec
        injection hdec with h1 h2
        subst h1
        have ha : a.faults = false := hpre a (List.mem_cons_self a pre2)
        have htail := ih.2 pre2 f post h2 (fun l hl => hpre l (List.mem_cons_of_mem a hl)) hf
        simp [notifyRun, ha, htail]

/-- Witness for `notify_order_and_fault`: two non-raising listeners are
both invoked in order; a raising first listener is invoked alone and
its fault propagates. -/
theorem notify_order_and_fault_witness :
    notifyRun [⟨0, false⟩, ⟨1, false⟩] = ([0, 1], none) ∧
    notifyRun [⟨2, true⟩, ⟨3, false⟩] = ([2], some 2) := by
  constructor
  · have h := (notify_order_and_fault [⟨0, false⟩, ⟨1, false⟩]).1 (by decide)
    simpa using h
  · have h := (notify_order_and_fault [⟨2, true⟩, ⟨3, false⟩]).2 [] ⟨2, true⟩
      [⟨3, false⟩] rfl (by simp) rfl
    simpa using h

/-- C3 counterexample: for the undefined event-type byte 9 the
classifier callback ends in an uncaught RuntimeError — the exception
leaves the notification callback (the result is an error, not a
recovered normal return), so the failure is not isolated inside the
handler. -/
theorem onClassifier_unknown_escapes :
    onClassifier 9 0 0 = Except.error (PyErr.runtimeError 9) := rfl

/-- C3 amended: for every classifier notification whose event-type byte
is not among the six defined values, no event is dispatched and a
RuntimeError is raised, but the error is not recovered locally — it
propagates out of the notification callback into the delivery path. -/
theorem onClassifier_unknown_raises (e d1 d2 : Nat)
    (h : e ∉ ([1, 2, 3, 4, 5, 6] : List Nat)) :
    onClassifier e d1 d2 = Except.error (PyErr.runtimeError e) := by
  simp only [List.mem_cons, List.not_mem_nil, or_false, not_or] at h
  obtain ⟨h1, h2, h3, h4, h5, h6⟩ := h
  unfold onClassifier
  simp only [ClassifierEventType.toNat]
  rw [if_neg h1, if_neg h2, if_neg h3, if_neg h4, if_neg h5, if_neg h6]

/-- Witness for `onClassifier_unknown_raises` at event-type byte 9. -/
theorem onClassifier_unknown_raises_witness :
    onClassifier 9 1 2 = Except.error (PyErr.runtimeError 9) :=
  onClassifier_unknown_raises 9 1 2 (by decide)

/-- C7: on the six defined classifier event types the dispatched event
follows the table — ARM_SYNCED decodes its two payload bytes into arm
and x-direction, ARM_UNSYNCED gives Sync(UNKNOWN, UNKNOWN), POSE reads
its payload as a little-endian 16-bit pose value, UNLOCKED/LOCKED give
Lock(false)/Lock(true), SYNC_FAILED gives Sync(UNKNOWN, UNKNOWN,
FAILED_TOO_HARD); in particular payload `[3, 1, 0]` dispatches
Pose(FIST) and `[6, 0, 0]` dispatches the failed sync. -/
theorem onClassifier_dispatch_table :
    (∀ d1 d2 a x, Arm.fromNat? d1 = some a → XDirection.fromNat? d2 = some x →
        onClassifier 1 d1 d2 = .ok [.sync a x none]) ∧
    (∀ d1 d2, onClassifier 2 d1 d2 = .ok [.sync .UNKNOWN .UNKNOWN none]) ∧
    (∀ d1 d2 p, Pose.fromNat? (d1 + 256 * d2) = some p →
        onClassifier 3 d1 d2 = .ok [.pose p]) ∧
    (∀ d1 d2, onClassifier 4 d1 d2 = .ok [.lock false]) ∧
    (∀ d1 d2, onClassifier 5 d1 d2 = .ok [.lock true]) ∧
    (∀ d1 d2, onClassifier 6 d1 d2 = .ok [.sync .UNKNOWN .UNKNOWN (some .FAILED_TOO_HARD)]) ∧
    onClassifier 3 1 0 = .ok [.pose .FIST] ∧
    onClassifier 6 0 0 = .ok [.sync .UNKNOWN .UNKNOWN (some .FAILED_TOO_HARD)] := by
  refine ⟨?_, ?_, ?_, ?_, ?_, ?_, rfl, rfl⟩
  · intro d1 d2 a x ha hx
    simp [onClassifier, ClassifierEventType.toNat, ha, hx]
  · intro d1 d2
    simp [onClassifier, ClassifierEventType.toNat]
  · intro d1 d2 p hp
    simp [onClassifier, ClassifierEventType.toNat, hp]
  · intro d1 d2
    simp [onClassifier, ClassifierEventType.toNat]
  · intro d1 d2
    simp [onClassifier, ClassifierEventType.toNat]
  · intro d1 d2
    simp [onClassifier, ClassifierEventType.toNat]

/-- Witness for `onClassifier_dispatch_table`: ARM_SYNCED with payload
bytes (1, 2) dispatches Sync(RIGHT, ELBOW) and POSE with payload
(1, 0) dispatches Pose(FIST). -/
theorem onClassifier_dispatch_table_witness :
    onClassifier 1 1 2 = .ok [.sync .RIGHT .ELBOW none] ∧
    onClassifier 3 1 0 = .ok [.pose .FIST] :=
  ⟨onClassifier_dispatch_table.1 1 2 .RIGHT .ELBOW rfl rfl,
   onClassifier_dispatch_table.2.2.1 1 0 .FIST rfl⟩

/-- Flattening distributes over list append. -/
theorem flatSteps_append (xs ys : List (Nat × Nat)) :
    flatSteps (xs ++ ys) = flatSteps xs ++ flatSteps ys := by
  induction xs with
  | nil => rfl
  | cons p xs ih =>
    obtain ⟨d, s⟩ := p
    simp [flatSteps, ih]

/-- Flattening the zero padding steps yields a run of zero bytes. -/
theorem flatSteps_replicate_zero (k : Nat) :
    flatSteps (List.replicate k (0, 0)) = List.replicate (3 * k) 0 := by
  induction k with
  | zero => rfl
  | succ n ih =>
    have h3 : 3 * (n + 1) = 3 * n + 1 + 1 + 1 := by ring
    rw [List.replicate_succ, h3, List.replicate_succ, List.replicate_succ,
        List.replicate_succ, flatSteps, ih]

/-- C4 counterexample: the three-step literal call does not produce the
22-byte frame stated by the claim — the pack format `"<2B" + 6 * "HB"`
yields a 20-byte frame (2 header bytes plus 6 groups of 3), so the
claimed trailing run of 11 zero bytes cannot occur. -/
theorem vibrate2_literal_mismatch :
    vibrate2 [(100, 128), (200, 192), (300, 255)] ≠
      { written := [[7, 20, 100, 0, 128, 200, 0, 192, 44, 1, 255,
                     0, 0, 0, 0, 0, 0, 0, 0, 0, 0, 0]]
        raised := none } := by
  decide

/-- C4 amended: for at most 6 steps (each fitting u16 duration and u8
strength), vibrate2 writes exactly `[7, 20]` followed by each step as
little-endian u16 duration plus strength byte, zero-filled to 6 steps
(a 20-byte frame in total; the literal steps (100, 128), (200, 192),
(300, 255) produce `[7, 20, 100, 0, 128, 200, 0, 192, 44, 1, 255, 0,
0, 0, 0, 0, 0, 0, 0, 0]`); for more than 6 steps it raises ValueError
and writes nothing. -/
theorem vibrate2_encoding (steps : List (Nat × Nat)) :
    (steps.length ≤ 6 → (∀ p ∈ steps, p.1 < 65536 ∧ p.2 < 256) →
      vibrate2 steps =
        { written := [7 :: 20 :: (flatSteps steps ++ List.replicate (3 * (6 - steps.length)) 0)]
          raised := none }) ∧
    (6 < steps.length →
      vibrate2 steps = { written := [], raised := some PyErr.valueError }) := by
  constructor
  · intro hlen hfit
    have hfitb : stepsFit steps = true := by
      unfold stepsFit
      rw [List.all_eq_true]
      intro p hp
      simp only [Bool.and_eq_true, decide_eq_true_eq]
      exact hfit p hp
    unfold vibrate2
    rw [if_neg (by simp only [VIBRATE2_STEPS]; omega), if_pos hfitb]
    simp only [VIBRATE2_STEPS]
    rw [flatSteps_append, flatSteps_replicate_zero]
  · intro h
    unfold vibrate2
    rw [if_pos (by simp only [VIBRATE2_STEPS]; omega)]

/-- Witness for `vibrate2_encoding`: the literal three-step call
produces the 20-byte frame, and a seven-step call only raises. -/
theorem vibrate2_encoding_witness :
    vibrate2 [(100, 128), (200, 192), (300, 255)] =
      { written := [[7, 20, 100, 0, 128, 200, 0, 192, 44, 1, 255,
                     0, 0, 0, 0, 0, 0, 0, 0, 0]]
        raised := none } ∧
    vibrate2 [(0, 0), (0, 0), (0, 0), (0, 0), (0, 0), (0, 0), (0, 0)] =
      { written := [], raised := some PyErr.valueError } := by
  constructor
  · have h := (vibrate2_encoding [(100, 128), (200, 192), (300, 255)]).1
      (by decide) (by decide)
    rw [h]
    decide
  · exact (vibrate2_encoding [(0, 0), (0, 0), (0, 0), (0, 0), (0, 0), (0, 0), (0, 0)]).2
      (by decide)

/-- Decoding the little-endian byte pair of an in-range `Int` recovers
it. -/
theorem int16le_encInt16le (x : Int) (h1 : -32768 ≤ x) (h2 : x ≤ 32767) :
    int16le (encInt16le x).1 (encInt16le x).2 = x := by
  unfold int16le encInt16le
  dsimp only
  split <;> omega

/-- C6: a 20-byte IMU notification carrying ten signed little-endian
shorts decodes to the first four divided by 16384 as the orientation
quaternion, the next three divided by 2048 as the accelerometer and
the last three divided by 16 as the gyroscope. -/
theorem onImu_scaling (s0 s1 s2 s3 s4 s5 s6 s7 s8 s9 : Int)
    (h0 : -32768 ≤ s0 ∧ s0 ≤ 32767) (h1 : -32768 ≤ s1 ∧ s1 ≤ 32767)
    (h2 : -32768 ≤ s2 ∧ s2 ≤ 32767) (h3 : -32768 ≤ s3 ∧ s3 ≤ 32767)
    (h4 : -32768 ≤ s4 ∧ s4 ≤ 32767) (h5 : -32768 ≤ s5 ∧ s5 ≤ 32767)
    (h6 : -32768 ≤ s6 ∧ s6 ≤ 32767) (h7 : -32768 ≤ s7 ∧ s7 ≤ 32767)
    (h8 : -32768 ≤ s8 ∧ s8 ≤ 32767) (h9 : -32768 ≤ s9 ∧ s9 ≤ 32767) :
    onImu [(encInt16le s0).1, (encInt16le s0).2, (encInt16le s1).1, (encInt16le s1).2,
           (encInt16le s2).1, (encInt16le s2).2, (encInt16le s3).1, (encInt16le s3).2,
           (encInt16le s4).1, (encInt16le s4).2, (encInt16le s5).1, (encInt16le s5).2,
           (encInt16le s6).1, (encInt16le s6).2, (encInt16le s7).1, (encInt16le s7).2,
           (encInt16le s8).1, (encInt16le s8).2, (encInt16le s9).1, (encInt16le s9).2] =
      Except.ok
        { orientation :=
            ((s0 : ℚ) / 16384, (s1 : ℚ) / 16384, (s2 : ℚ) / 16384, (s3 : ℚ) / 16384)
          accelerometer := ((s4 : ℚ) / 2048, (s5 : ℚ) / 2048, (s6 : ℚ) / 2048)
          gyroscope := ((s7 : ℚ) / 16, (s8 : ℚ) / 16, (s9 : ℚ) / 16) } := by
  dsimp only [onImu]
  rw [int16le_encInt16le s0 h0.1 h0.2, int16le_encInt16le s1 h1.1 h1.2,
      int16le_encInt16le s2 h2.1 h2.2, int16le_encInt16le s3 h3.1 h3.2,
      int16le_encInt16le s4 h4.1 h4.2, int16le_encInt16le s5 h5.1 h5.2,
      int16le_encInt16le s6 h6.1 h6.2, int16le_encInt16le s7 h7.1 h7.2,
      int16le_encInt16le s8 h8.1 h8.2, int16le_encInt16le s9 h9.1 h9.2]

/-- Witness for `onImu_scaling`: raw shorts (16384, 0, 0, 0, 2048, 0,
0, 16, 0, 0) — bytes `[0, 64, 0, 0, …, 0, 8, 0, 0, 0, 0, 16, 0, …]` —
yield orientation (1, 0, 0, 0), accelerometer (1, 0, 0) and gyroscope
(1, 0, 0). -/
theorem onImu_scaling_witness :
    onImu [0, 64, 0, 0, 0, 0, 0, 0, 0, 8, 0, 0, 0, 0, 16, 0, 0, 0, 0, 0] =
      Except.ok
        { orientation := (1, 0, 0, 0)
          accelerometer := (1, 0, 0)
          gyroscope := (1, 0, 0) } := by
  have h := onImu_scaling 16384 0 0 0 2048 0 0 16 0 0
    (by decide) (by decide) (by decide) (by decide) (by decide)
    (by decide) (by decide) (by decide) (by decide) (by decide)
  have e : [(encInt16le 16384).1, (encInt16le 16384).2, (encInt16le 0).1, (encInt16le 0).2,
            (encInt16le 0).1, (encInt16le 0).2, (encInt16le 0).1, (encInt16le 0).2,
            (encInt16le 2048).1, (encInt16le 2048).2, (encInt16le 0).1, (encInt16le 0).2,
            (encInt16le 0).1, (encInt16le 0).2, (encInt16le 16).1, (encInt16le 16).2,
            (encInt16le 0).1, (encInt16le 0).2, (encInt16le 0).1, (encInt16le 0).2] =
      [0, 64, 0, 0, 0, 0, 0, 0, 0, 8, 0, 0, 0, 0, 16, 0, 0, 0, 0, 0] := by
    decide
  rw [e] at h
  rw [h]
  norm_num
